import Mathlib

/-!
Verification of the Sigma firmware core (src/apps/firmware/src/main.cpp and
src/apps/firmware/include/config.h): a shallow embedding of the configuration
constants, the startup safety check, the startup report, and the debounced
button controller, together with theorems settling the specified properties.

Modelling conventions:
* `float` configuration fields are embedded as `Rat`.  The firmware only ever
  compares these fields (`>` in `enforce_audio_safety`) and never computes with
  them, and comparison of finite IEEE floats agrees with the order of the
  rationals they denote, so the embedding is faithful for every finite
  configuration.
* `unsigned long` timestamps (Arduino: 32 bits) are embedded as `Nat` reduced
  modulo `2 ^ 32` wherever the firmware stores or subtracts them; the C++
  expression `now - last_sample_ms` becomes `usub32 now last_sample_ms`.
* Each `Serial.print*` group ending in `println` produces one output line; a
  line is embedded as a `Line` value carrying the varying payloads of the
  printed text.
-/

/-- One line of serial output.  Each constructor corresponds to one
`println`-terminated print group in `main.cpp`:
* `blank` — the `Serial.println()` separator in `setup`;
* `ready v` — `"Sigma firmware ready (v" v ")"`;
* `usageHint` — `"Press the button to toggle the status LED"`;
* `splWarning` — the single warning of `enforce_audio_safety`:
  `"[safety] Recommended SPL exceeds absolute maximum - check config.h"`;
* `splInfo r` — `"[safety] Maintain SPL under " r " dB ..."`;
* `micBiasInfo lo hi` — `"[safety] Keep mic bias between " lo " V and " hi " V."`;
* `batteryInfo low` — `"[safety] Stop use if battery drops below " low " V ..."`;
* `buttonState p` — `"Button state: "` followed by `"pressed"` when `p` is
  true and `"released"` otherwise. -/
inductive Line where
  | blank : Line
  | ready (version : String) : Line
  | usageHint : Line
  | splWarning : Line
  | splInfo (rec : Rat) : Line
  | micBiasInfo (lo hi : Rat) : Line
  | batteryInfo (low : Rat) : Line
  | buttonState (pressed : Bool) : Line
  deriving DecidableEq, Repr

/-- Rendered text of a runtime button-state line, exactly as `loop` prints it. -/
def renderButtonLine (pressed : Bool) : String :=
  "Button state: " ++ (if pressed then "pressed" else "released")

/-- The configuration bundle of `config.h` (`namespace sigma::config`), with
the `float` constants embedded as `Rat`. -/
structure Config where
  firmwareVersion : String
  serialBaudRate : Nat
  statusLedPin : Nat
  buttonPin : Nat
  recommendedMaxSplDb : Rat
  absoluteMaxSplDb : Rat
  micBiasMinVolts : Rat
  micBiasMaxVolts : Rat
  batteryNominalVolts : Rat
  batteryLowVolts : Rat
  batteryCriticalVolts : Rat
  deriving DecidableEq, Repr

/-- The shipped configuration values of `config.h`. -/
def sigmaConfig : Config :=
  { firmwareVersion := "0.1.0"
    serialBaudRate := 115200
    statusLedPin := 2
    buttonPin := 0
    recommendedMaxSplDb := 85
    absoluteMaxSplDb := 94
    micBiasMinVolts := 9 / 5
    micBiasMaxVolts := 33 / 10
    batteryNominalVolts := 37 / 10
    batteryLowVolts := 33 / 10
    batteryCriticalVolts := 3 }

/-- `enforce_audio_safety` from `main.cpp`: prints the SPL warning line when
`kRecommendedMaxSplDb > kAbsoluteMaxSplDb`, and nothing otherwise.  This is
the entire startup invariant check — no other field of the configuration is
inspected. -/
def enforce_audio_safety (cfg : Config) : List Line :=
  if cfg.absoluteMaxSplDb < cfg.recommendedMaxSplDb then [Line.splWarning] else []

/-- `report_safety_callouts` from `main.cpp`: the three informational lines
restating the SPL, mic-bias and battery thresholds. -/
def report_safety_callouts (cfg : Config) : List Line :=
  [Line.splInfo cfg.recommendedMaxSplDb,
   Line.micBiasInfo cfg.micBiasMinVolts cfg.micBiasMaxVolts,
   Line.batteryInfo cfg.batteryLowVolts]

/-- `constexpr unsigned long kDebounceDelayMs = 10;`. -/
def kDebounceDelayMs : Nat := 10

/-- Modulus of Arduino `unsigned long` (32-bit) arithmetic. -/
def u32 : Nat := 4294967296

/-- Unsigned 32-bit subtraction: the value of the C++ expression `a - b` when
`a` and `b` are `unsigned long`s holding `a % 2^32` and `b % 2^32`. -/
def usub32 (a b : Nat) : Nat :=
  (a % u32 + (u32 - b % u32)) % u32

/-- The mutable state touched by `loop`, together with the status-LED level it
drives: `last_sample_ms` and `button_state` are the two namespace-scope
variables of `main.cpp`; `led` is the level last written to
`kStatusLedPin` (`true` = HIGH). -/
structure CState where
  last_sample_ms : Nat
  button_state : Bool
  led : Bool
  deriving DecidableEq, Repr

/-- The controller state at process start: both variables zero-initialized and
the LED driven LOW by `setup`. -/
def initState : CState :=
  { last_sample_ms := 0, button_state := false, led := false }

/-- Result of one `loop` iteration: the new state, the LED write performed by
`digitalWrite(kStatusLedPin, ...)` if any, and the serial lines printed. -/
structure TickOut where
  state : CState
  ledWrite : Option Bool
  lines : List Line
  deriving DecidableEq, Repr

/-- The body of `loop` from `main.cpp`, with the hardware reads passed in:
`now` is the value of `millis()` and `pressed` is
`digitalRead(kButtonPin) == LOW`.  The sample is ignored when
`now - last_sample_ms < kDebounceDelayMs` (computed in unsigned 32-bit
arithmetic); otherwise `last_sample_ms` is set to `now` and, when the sample
differs from `button_state`, the state toggles, the LED is written, and one
button-state line is printed. -/
def tick (s : CState) (pressed : Bool) (now : Nat) : TickOut :=
  if usub32 now s.last_sample_ms < kDebounceDelayMs then
    { state := s, ledWrite := none, lines := [] }
  else
    let s1 : CState := { s with last_sample_ms := now % u32 }
    if pressed ≠ s.button_state then
      { state := { s1 with button_state := pressed, led := pressed }
        ledWrite := some pressed
        lines := [Line.buttonState pressed] }
    else
      { state := s1, ledWrite := none, lines := [] }

/-- Iterate `tick` over a list of `(pressed, now)` samples, collecting all
printed lines in order. -/
def runTicks (s : CState) (inputs : List (Bool × Nat)) : CState × List Line :=
  match inputs with
  | [] => (s, [])
  | (p, t) :: rest =>
      let o := tick s p t
      let r := runTicks o.state rest
      (r.1, o.lines ++ r.2)

/-- Iterate `tick` over a list of `(pressed, now)` samples, collecting both
the LED writes (each `digitalWrite` level, in order) and the printed lines.
Same iteration as `runTicks`, keeping the `ledWrite` component instead of
discarding it. -/
def runTicksW (s : CState) (inputs : List (Bool × Nat)) :
    CState × List Bool × List Line :=
  match inputs with
  | [] => (s, [], [])
  | (p, t) :: rest =>
      let o := tick s p t
      let r := runTicksW o.state rest
      (r.1, o.ledWrite.toList ++ r.2.1, o.lines ++ r.2.2)

/-- The serial lines printed by `setup`, in order: blank separator, the
firmware-ready line, the usage hint, then `enforce_audio_safety` and
`report_safety_callouts`. -/
def startupReport (cfg : Config) : List Line :=
  [Line.blank, Line.ready cfg.firmwareVersion, Line.usageHint]
    ++ enforce_audio_safety cfg ++ report_safety_callouts cfg

/-- `setup` from `main.cpp`: drives the LED LOW, leaves the controller in its
zero-initialized state, prints the startup report, and returns — there is no
abort path, so the process always proceeds to `loop`. -/
def setup (cfg : Config) : CState × List Line :=
  (initState, startupReport cfg)

/-- Configuration with the mic-bias bounds inverted (`min = 3.3 > max = 1.8`,
so `min >= max` and `max` below the 1.5 V envelope floor is not even needed)
and the battery thresholds inverted (`critical = 3.5 >= low = 3.3`). -/
def cfgMicBatBad : Config :=
  { sigmaConfig with
      micBiasMinVolts := 33 / 10
      micBiasMaxVolts := 9 / 5
      batteryCriticalVolts := 7 / 2 }

/-- Configuration violating only the battery invariant:
`critical = 3.5 >= low = 3.3`. -/
def cfgBatteryBad : Config :=
  { sigmaConfig with batteryCriticalVolts := 7 / 2 }

/-- Controller state whose last accepted sample sits just below the 32-bit
wrap point of `millis()`. -/
def wrapState : CState :=
  { last_sample_ms := u32 - 1, button_state := false, led := false }

/-- Controller state already in the pressed state with the LED driven HIGH. -/
def pressedState : CState :=
  { last_sample_ms := 0, button_state := true, led := true }

/-! ### Helper lemmas about `tick` and `runTicks` -/

theorem tick_blocked_eq (s : CState) (p : Bool) (now : Nat)
    (h : usub32 now s.last_sample_ms < kDebounceDelayMs) :
    tick s p now = { state := s, ledWrite := none, lines := [] } := by
  unfold tick
  rw [if_pos h]

theorem tick_accepted_last (s : CState) (p : Bool) (now : Nat)
    (h : ¬ usub32 now s.last_sample_ms < kDebounceDelayMs) :
    (tick s p now).state.last_sample_ms = now % u32 := by
  unfold tick
  rw [if_neg h]
  by_cases hp : p ≠ s.button_state
  · rw [if_pos hp]
  · rw [if_neg hp]

theorem tick_lines_length_le (s : CState) (p : Bool) (now : Nat) :
    (tick s p now).lines.length ≤ 1 := by
  unfold tick
  split
  · simp
  · by_cases hp : p ≠ s.button_state
    · rw [if_pos hp]; simp
    · rw [if_neg hp]; simp

/-- Every `tick` either prints nothing and keeps `button_state`, or toggles to
the sampled value and prints exactly its button-state line. -/
theorem tick_cases (s : CState) (p : Bool) (now : Nat) :
    ((tick s p now).lines = [] ∧
      (tick s p now).state.button_state = s.button_state) ∨
    ((tick s p now).lines = [Line.buttonState p] ∧
      (tick s p now).state.button_state = p ∧ p ≠ s.button_state) := by
  unfold tick
  split
  · exact Or.inl ⟨rfl, rfl⟩
  · by_cases hp : p ≠ s.button_state
    · rw [if_pos hp]
      exact Or.inr ⟨rfl, rfl, hp⟩
    · rw [if_neg hp]
      exact Or.inl ⟨rfl, rfl⟩

theorem runTicks_nil (s : CState) : runTicks s [] = (s, []) := rfl

theorem runTicks_cons (s : CState) (p : Bool) (t : Nat) (rest : List (Bool × Nat)) :
    runTicks s ((p, t) :: rest) =
      ((runTicks (tick s p t).state rest).1,
        (tick s p t).lines ++ (runTicks (tick s p t).state rest).2) := rfl

/-- With an input stream constantly equal to the current debounced state, no
line is ever printed and the state value never changes. -/
theorem runTicks_const_same (r : Bool) (ts : List Nat) :
    ∀ s : CState, s.button_state = r →
      (runTicks s (ts.map fun t => (r, t))).2 = [] ∧
      (runTicks s (ts.map fun t => (r, t))).1.button_state = r := by
  induction ts with
  | nil => exact fun s h => ⟨rfl, h⟩
  | cons t ts ih =>
      intro s h
      rcases tick_cases s r t with ⟨h1, h2⟩ | ⟨_, _, h3⟩
      · rw [List.map_cons, runTicks_cons, h1]
        have := ih (tick s r t).state (h2.trans h)
        exact ⟨by simpa using this.1, this.2⟩
      · exact absurd h.symm h3

/-- With a constant input stream, at most one line is printed in total, and
any printed line is the button-state line of the sampled value. -/
theorem runTicks_const_bound (r : Bool) (ts : List Nat) :
    ∀ s : CState,
      (runTicks s (ts.map fun t => (r, t))).2.length ≤ 1 ∧
      ∀ l ∈ (runTicks s (ts.map fun t => (r, t))).2, l = Line.buttonState r := by
  induction ts with
  | nil => exact fun s => ⟨by simp [runTicks_nil], by simp [runTicks_nil]⟩
  | cons t ts ih =>
      intro s
      rcases tick_cases s r t with ⟨h1, _⟩ | ⟨h1, h2, _⟩
      · rw [List.map_cons, runTicks_cons, h1]
        have := ih (tick s r t).state
        exact ⟨by simpa using this.1, by simpa using this.2⟩
      · rw [List.map_cons, runTicks_cons, h1]
        have := runTicks_const_same r ts (tick s r t).state h2
        rw [this.1]
        exact ⟨by simp, by simp⟩

theorem tick_preserves_mirror (s : CState) (p : Bool) (now : Nat)
    (h : s.led = s.button_state) :
    (tick s p now).state.led = (tick s p now).state.button_state := by
  unfold tick
  split
  · exact h
  · by_cases hp : p ≠ s.button_state
    · rw [if_pos hp]
    · rw [if_neg hp]; exact h

theorem runTicks_preserves_mirror (inputs : List (Bool × Nat)) :
    ∀ s : CState, s.led = s.button_state →
      (runTicks s inputs).1.led = (runTicks s inputs).1.button_state := by
  induction inputs with
  | nil => exact fun s h => h
  | cons pt rest ih =>
      intro s h
      obtain ⟨p, t⟩ := pt
      rw [runTicks_cons]
      exact ih (tick s p t).state (tick_preserves_mirror s p t h)

theorem usub32_mod_right (a b : Nat) : usub32 a (b % u32) = usub32 a b := by
  unfold usub32
  rw [Nat.mod_mod_of_dvd b dvd_rfl]

theorem usub32_sub_of_le (a b : Nat) (h1 : b ≤ a) (h2 : a - b < u32) :
    usub32 a b = a - b := by
  unfold usub32 u32 at *
  omega

/-- Exhaustive characterization of one `tick`: the sample is either ignored
(nothing changes, nothing written, nothing printed), accepted with an equal
value (only `last_sample_ms` advances, still nothing written or printed), or
accepted with a differing value (state toggles, exactly one LED write of the
new level, exactly one button-state line). -/
theorem tick_casesW (s : CState) (p : Bool) (t : Nat) :
    tick s p t = { state := s, ledWrite := none, lines := [] } ∨
    (tick s p t =
        { state := { s with last_sample_ms := t % u32 }, ledWrite := none,
          lines := [] } ∧
      p = s.button_state) ∨
    (tick s p t =
        { state := { last_sample_ms := t % u32, button_state := p, led := p },
          ledWrite := some p, lines := [Line.buttonState p] } ∧
      p ≠ s.button_state) := by
  unfold tick
  split
  · exact Or.inl rfl
  · by_cases hp : p ≠ s.button_state
    · refine Or.inr (Or.inr ⟨?_, hp⟩)
      rw [if_pos hp]
    · refine Or.inr (Or.inl ⟨?_, not_not.mp hp⟩)
      rw [if_neg hp]

theorem runTicksW_cons (s : CState) (p : Bool) (t : Nat) (rest : List (Bool × Nat)) :
    runTicksW s ((p, t) :: rest) =
      ((runTicksW (tick s p t).state rest).1,
        (tick s p t).ledWrite.toList ++ (runTicksW (tick s p t).state rest).2.1,
        (tick s p t).lines ++ (runTicksW (tick s p t).state rest).2.2) := rfl

/-- `runTicksW` agrees with `runTicks` on the final state and the printed
lines; it only adds the LED-write record. -/
theorem runTicksW_agrees (inputs : List (Bool × Nat)) :
    ∀ s : CState,
      (runTicksW s inputs).1 = (runTicks s inputs).1 ∧
      (runTicksW s inputs).2.2 = (runTicks s inputs).2 := by
  induction inputs with
  | nil => exact fun s => ⟨rfl, rfl⟩
  | cons pt rest ih =>
      intro s
      obtain ⟨p, t⟩ := pt
      rw [runTicksW_cons, runTicks_cons]
      exact ⟨(ih (tick s p t).state).1, by rw [(ih (tick s p t).state).2]⟩

/-- With an input stream constantly equal to the current debounced state,
nothing is written to the LED, nothing is printed, and the state value never
changes. -/
theorem runTicksW_const_same (r : Bool) (ts : List Nat) :
    ∀ s : CState, s.button_state = r →
      (runTicksW s (ts.map fun t => (r, t))).2 = ([], []) ∧
      (runTicksW s (ts.map fun t => (r, t))).1.button_state = r := by
  induction ts with
  | nil => exact fun s h => ⟨rfl, h⟩
  | cons t ts ih =>
      intro s h
      rw [List.map_cons, runTicksW_cons]
      rcases tick_casesW s r t with h1 | ⟨h1, _⟩ | ⟨_, h3⟩
      · rw [h1]
        have h2 := ih s h
        exact ⟨by simp [h2.1], by simpa using h2.2⟩
      · rw [h1]
        have h2 := ih { s with last_sample_ms := t % u32 } (by simpa using h)
        exact ⟨by simp [h2.1], by simpa using h2.2⟩
      · exact absurd h.symm h3

/-- Dichotomy for a constant input stream `r`: either no state change is
accepted — then no LED write and no line at all, and the state value is
unchanged — or exactly one state change is accepted (possible only when the
controller did not already hold `r`) — then exactly one LED write of the new
level and exactly one button-state line are produced, and nothing after
them. -/
theorem runTicksW_const_cases (r : Bool) (ts : List Nat) :
    ∀ s : CState,
      ((runTicksW s (ts.map fun t => (r, t))).2 = ([], []) ∧
        (runTicksW s (ts.map fun t => (r, t))).1.button_state = s.button_state) ∨
      ((runTicksW s (ts.map fun t => (r, t))).2 = ([r], [Line.buttonState r]) ∧
        (runTicksW s (ts.map fun t => (r, t))).1.button_state = r ∧
        r ≠ s.button_state) := by
  induction ts with
  | nil => exact fun s => Or.inl ⟨rfl, rfl⟩
  | cons t ts ih =>
      intro s
      rw [List.map_cons, runTicksW_cons]
      rcases tick_casesW s r t with h1 | ⟨h1, h2⟩ | ⟨h1, h2⟩
      · rw [h1]
        rcases ih s with ⟨ha, hb⟩ | ⟨ha, hb, hc⟩
        · exact Or.inl ⟨by simp [ha], by simpa using hb⟩
        · exact Or.inr ⟨by simp [ha], by simpa using hb, hc⟩
      · rw [h1]
        have h3 := runTicksW_const_same r ts
          { s with last_sample_ms := t % u32 } (by simpa using h2.symm)
        refine Or.inl ⟨by simp [h3.1], ?_⟩
        have := h3.2
        simpa [← h2] using this
      · rw [h1]
        have h3 := runTicksW_const_same r ts
          { last_sample_ms := t % u32, button_state := r, led := r } rfl
        refine Or.inr ⟨by simp [h3.1], by simpa using h3.2, h2⟩

/-! ### Claim theorems -/

/-- C1 counterexample: a configuration with the mic-bias bounds inverted
(`min = 3.3 >= max = 1.8`) and the battery thresholds inverted
(`critical = 3.5 >= low = 3.3`) produces an empty output from the startup
invariant check, so no mic-bias and no battery violation is reported. -/
theorem c1_mic_battery_not_reported :
    cfgMicBatBad.micBiasMaxVolts ≤ cfgMicBatBad.micBiasMinVolts ∧
    cfgMicBatBad.batteryLowVolts ≤ cfgMicBatBad.batteryCriticalVolts ∧
    enforce_audio_safety cfgMicBatBad = [] := by
  refine ⟨?_, ?_, rfl⟩ <;> norm_num [cfgMicBatBad, sigmaConfig]

/-- C1 (amended): the startup invariant check reads only the SPL fields — its
output is unchanged under arbitrary replacement of the mic-bias and battery
fields — and it only ever prints nothing or the single SPL warning, so no
mic-bias or battery violation is ever reported, for any configuration. -/
theorem c1_amended_check_reads_only_spl (cfg : Config) (m1 m2 b1 b2 b3 : Rat) :
    enforce_audio_safety
        { cfg with
            micBiasMinVolts := m1
            micBiasMaxVolts := m2
            batteryNominalVolts := b1
            batteryLowVolts := b2
            batteryCriticalVolts := b3 }
      = enforce_audio_safety cfg ∧
    (enforce_audio_safety cfg = [] ∨ enforce_audio_safety cfg = [Line.splWarning]) := by
  unfold enforce_audio_safety
  refine ⟨rfl, ?_⟩
  split
  · exact Or.inr rfl
  · exact Or.inl rfl

/-- C2 counterexample: from the initial state (`last_sample_ms = 0`,
`button_state = false`), the tick at `t = 0` is ignored (`0 - 0 = 0 < 10`):
it does not transition to Pressed and emits nothing, and the whole scenario
`(true,0), (true,5), (false,20)` emits 0 notifications, not 2. -/
theorem c2_scenario_zero_notifications :
    (tick initState true 0).state = initState ∧
    (tick initState true 0).lines = [] ∧
    (runTicks initState [(true, 0), (true, 5), (false, 20)]).2.length = 0 := by
  refine ⟨rfl, rfl, rfl⟩

/-- C2 (amended): on the scenario ticks, the first and second samples are
ignored by the debounce guard (`0 - 0 = 0 < 10` and `5 - 0 = 5 < 10`), the
third passes the guard but its value `false` equals the Released state, so no
transition occurs, no output is written, and 0 notifications are emitted. -/
theorem c2_amended_trace :
    tick initState true 0 = { state := initState, ledWrite := none, lines := [] } ∧
    tick initState true 5 = { state := initState, ledWrite := none, lines := [] } ∧
    tick initState false 20 =
      { state := { last_sample_ms := 20, button_state := false, led := false },
        ledWrite := none, lines := [] } ∧
    (runTicks initState [(true, 0), (true, 5), (false, 20)]).2 = [] := by
  refine ⟨rfl, rfl, rfl, rfl⟩

/-- C3: the startup invariant check reports no SPL violation when
`recommended_max_spl_db <= absolute_max_spl_db` (equality included, since the
source compares with strict `>`), and exactly one SPL violation when
`recommended_max_spl_db > absolute_max_spl_db`. -/
theorem c3_spl_check (cfg : Config) :
    (enforce_audio_safety cfg).count Line.splWarning =
      if cfg.absoluteMaxSplDb < cfg.recommendedMaxSplDb then 1 else 0 := by
  unfold enforce_audio_safety
  split
  · rfl
  · rfl

/-- C4 counterexample: from the initial state, two calls with `now` values 5
and 12 (7 apart, below the debounce interval): the first is ignored, the
second passes the guard (`12 - 0 >= 10`), toggles to Pressed, writes the LED
HIGH and prints a line — so the second of two closely spaced calls can both
write the output and emit a notification. -/
theorem c4_second_call_writes :
    12 - 5 < kDebounceDelayMs ∧
    (tick initState true 5).lines = [] ∧
    (tick (tick initState true 5).state true 12).ledWrite = some true ∧
    (tick (tick initState true 5).state true 12).lines = [Line.buttonState true] := by
  refine ⟨by decide, rfl, rfl, rfl⟩

/-- C4 (amended): two calls less than the debounce interval apart produce at
most one state change (at most one printed line) in total; and whenever the
FIRST call passes the debounce guard, the second call is ignored entirely —
no state change, no output write, no notification. -/
theorem c4_amended_debounce_pair (s : CState) (r1 r2 : Bool) (t1 t2 : Nat)
    (hle : t1 ≤ t2) (hlt : t2 - t1 < kDebounceDelayMs) :
    (tick s r1 t1).lines.length + (tick (tick s r1 t1).state r2 t2).lines.length ≤ 1 ∧
    (kDebounceDelayMs ≤ usub32 t1 s.last_sample_ms →
      tick (tick s r1 t1).state r2 t2 =
        { state := (tick s r1 t1).state, ledWrite := none, lines := [] }) := by
  have hsub : usub32 t2 t1 < kDebounceDelayMs := by
    rw [usub32_sub_of_le t2 t1 hle
      (lt_trans hlt (by unfold kDebounceDelayMs u32; omega))]
    exact hlt
  by_cases hb : usub32 t1 s.last_sample_ms < kDebounceDelayMs
  · rw [tick_blocked_eq s r1 t1 hb]
    refine ⟨by simpa using tick_lines_length_le s r2 t2, fun h => absurd hb (not_lt.mpr h)⟩
  · have hlast : (tick s r1 t1).state.last_sample_ms = t1 % u32 :=
      tick_accepted_last s r1 t1 hb
    have hb2 : usub32 t2 (tick s r1 t1).state.last_sample_ms < kDebounceDelayMs := by
      rw [hlast, usub32_mod_right]
      exact hsub
    rw [tick_blocked_eq _ r2 t2 hb2]
    exact ⟨by simpa using tick_lines_length_le s r1 t1, fun _ => rfl⟩

/-- Witness for the amended C4 at concrete inputs: first call at `t = 100`
passes the guard from the initial state, second call at `t = 105` is ignored. -/
theorem c4_amended_debounce_pair_witness :
    (tick initState true 100).lines.length +
        (tick (tick initState true 100).state true 105).lines.length ≤ 1 ∧
    tick (tick initState true 100).state true 105 =
      { state := (tick initState true 100).state, ledWrite := none, lines := [] } :=
  ⟨(c4_amended_debounce_pair initState true true 100 105 (by decide) (by decide)).1,
   (c4_amended_debounce_pair initState true true 100 105 (by decide) (by decide)).2
     (by decide)⟩

/-- C5: over any sequence of ticks with an unchanged raw value `r`, either no
state change is accepted — and then no notification AND no LED output write
is produced at all, with the state value unchanged — or exactly one state
change is accepted (necessarily the first transition into `r`, possible only
when the controller did not already hold `r`), and then exactly one LED write
of the new level and exactly one button-state line are produced, with nothing
further after that transition.  So a line and a write occur per accepted
state change and never otherwise; when the controller already holds `r`
nothing is emitted; and the emitted line renders as the exact runtime text
`"Button state: pressed"`/`"Button state: released"`.  (The tick spacing is
irrelevant: this holds even without the spacing assumption of the claim.) -/
theorem c5_edge_triggering (s : CState) (r : Bool) (ts : List Nat) :
    (((runTicksW s (ts.map fun t => (r, t))).2 = ([], []) ∧
        (runTicksW s (ts.map fun t => (r, t))).1.button_state = s.button_state) ∨
      ((runTicksW s (ts.map fun t => (r, t))).2 = ([r], [Line.buttonState r]) ∧
        (runTicksW s (ts.map fun t => (r, t))).1.button_state = r ∧
        r ≠ s.button_state)) ∧
    (s.button_state = r → (runTicksW s (ts.map fun t => (r, t))).2 = ([], [])) ∧
    renderButtonLine true = "Button state: pressed" ∧
    renderButtonLine false = "Button state: released" :=
  ⟨runTicksW_const_cases r ts s,
   fun h => (runTicksW_const_same r ts s h).1,
   rfl, rfl⟩

/-- Witness for C5 at concrete inputs: from the pressed state, a constantly
pressed input stream spaced beyond the debounce interval produces no LED
write and no line. -/
theorem c5_edge_triggering_witness :
    (runTicksW pressedState (([0, 15, 30] : List Nat).map fun t => ((true : Bool), t))).2 = ([], []) ∧
    renderButtonLine true = "Button state: pressed" :=
  ⟨(c5_edge_triggering pressedState true [0, 15, 30]).2.1 rfl,
   (c5_edge_triggering pressedState true [0, 15, 30]).2.2.1⟩

/-- C6: when `now - last_sample_time < debounce_interval` (unsigned 32-bit
subtraction), `tick` leaves the entire controller state unchanged and performs
no output write and no notification; when the guard passes, `last_sample_time`
is updated to `now`. -/
theorem c6_guard_frame (s : CState) (p : Bool) (now : Nat) :
    (usub32 now s.last_sample_ms < kDebounceDelayMs →
      tick s p now = { state := s, ledWrite := none, lines := [] }) ∧
    (kDebounceDelayMs ≤ usub32 now s.last_sample_ms → now < u32 →
      (tick s p now).state.last_sample_ms = now) := by
  constructor
  · exact tick_blocked_eq s p now
  · intro h hn
    rw [tick_accepted_last s p now (not_lt.mpr h)]
    exact Nat.mod_eq_of_lt hn

/-- Witness for C6 at concrete inputs: the tick at `now = 5` from the initial
state is ignored entirely; the tick at `now = 100` updates the sample time. -/
theorem c6_guard_frame_witness :
    tick initState true 5 = { state := initState, ledWrite := none, lines := [] } ∧
    (tick initState true 100).state.last_sample_ms = 100 :=
  ⟨(c6_guard_frame initState true 5).1 (by decide),
   (c6_guard_frame initState true 100).2 (by decide) (by decide)⟩

/-- C7 counterexample: the configuration with `critical = 3.5 >= low = 3.3`
violates the declared battery invariant, yet its startup report consists of
exactly the standard lines — no violation of any kind is reported, so the
parenthetical "the violation is reported once" fails for this configuration. -/
theorem c7_battery_violation_unreported :
    cfgBatteryBad.batteryLowVolts ≤ cfgBatteryBad.batteryCriticalVolts ∧
    startupReport cfgBatteryBad =
      [Line.blank, Line.ready "0.1.0", Line.usageHint,
       Line.splInfo 85, Line.micBiasInfo (9 / 5) (33 / 10),
       Line.batteryInfo (33 / 10)] := by
  refine ⟨by norm_num [cfgBatteryBad, sigmaConfig], rfl⟩

/-- C7 (amended): violations are non-fatal — for every configuration,
including violating ones, `setup` completes and hands the controller its
initial running state (detection changes no state and aborts nothing), and an
SPL violation is reported exactly once in the startup report; mic-bias and
battery violations, however, go unreported. -/
theorem c7_amended_nonfatal (cfg : Config) :
    (setup cfg).1 = initState ∧
    (startupReport cfg).count Line.splWarning =
      if cfg.absoluteMaxSplDb < cfg.recommendedMaxSplDb then 1 else 0 := by
  refine ⟨rfl, ?_⟩
  unfold startupReport enforce_audio_safety report_safety_callouts
  split <;> simp [List.count_append, List.count_cons]

/-- C8: for every configuration, the startup report is, in order: the blank
separator, the firmware-ready line carrying the version, the usage-hint line,
then the safety-violation warning lines (each one the SPL warning), then the
three informational lines restating the SPL, mic-bias and battery
thresholds. -/
theorem c8_report_order (cfg : Config) :
    (startupReport cfg).take 3 =
      [Line.blank, Line.ready cfg.firmwareVersion, Line.usageHint] ∧
    (startupReport cfg).drop 3 =
      enforce_audio_safety cfg ++
        [Line.splInfo cfg.recommendedMaxSplDb,
         Line.micBiasInfo cfg.micBiasMinVolts cfg.micBiasMaxVolts,
         Line.batteryInfo cfg.batteryLowVolts] ∧
    ∀ l ∈ enforce_audio_safety cfg, l = Line.splWarning := by
  refine ⟨rfl, rfl, ?_⟩
  unfold enforce_audio_safety
  split <;> simp

/-- Witness for C8 at the shipped configuration. -/
theorem c8_report_order_witness :
    (startupReport sigmaConfig).take 3 =
      [Line.blank, Line.ready sigmaConfig.firmwareVersion, Line.usageHint] ∧
    (startupReport sigmaConfig).drop 3 =
      enforce_audio_safety sigmaConfig ++
        [Line.splInfo sigmaConfig.recommendedMaxSplDb,
         Line.micBiasInfo sigmaConfig.micBiasMinVolts sigmaConfig.micBiasMaxVolts,
         Line.batteryInfo sigmaConfig.batteryLowVolts] :=
  ⟨(c8_report_order sigmaConfig).1, (c8_report_order sigmaConfig).2.1⟩

/-- C9: after `setup` the LED is LOW and `button_state` is false, and after
any sequence of ticks from there the LED level equals the debounced state —
HIGH exactly when the state is Pressed. -/
theorem c9_led_mirrors_state (cfg : Config) (inputs : List (Bool × Nat)) :
    (setup cfg).1.led = false ∧
    (setup cfg).1.button_state = false ∧
    (runTicks (setup cfg).1 inputs).1.led =
      (runTicks (setup cfg).1 inputs).1.button_state :=
  ⟨rfl, rfl, runTicks_preserves_mirror inputs (setup cfg).1 rfl⟩

/-- C10: the debounce guard is unsigned 32-bit modular arithmetic — `tick`
ignores the sample exactly when `(now - last_sample_time) mod 2^32 < 10` —
so the comparison is defined for every pair of timestamps, and a `now` that
has wrapped around below `last_sample_time` does not permanently block
sampling: some numerically smaller `now` is already accepted. -/
theorem c10_modular_guard (s : CState) (p : Bool) (now : Nat)
    (hn : now < u32) (hl : s.last_sample_ms < u32) :
    (tick s p now = { state := s, ledWrite := none, lines := [] } ↔
      (now + (u32 - s.last_sample_ms)) % u32 < kDebounceDelayMs) ∧
    (kDebounceDelayMs ≤ s.last_sample_ms →
      ∃ m, m < s.last_sample_ms ∧ (tick s p m).state.last_sample_ms = m) := by
  have key : usub32 now s.last_sample_ms =
      (now + (u32 - s.last_sample_ms)) % u32 := by
    unfold usub32
    rw [Nat.mod_eq_of_lt hn, Nat.mod_eq_of_lt hl]
  constructor
  · constructor
    · intro h
      by_contra hcon
      have hnb : ¬ usub32 now s.last_sample_ms < kDebounceDelayMs := by
        rw [key]; exact hcon
      have hlast := tick_accepted_last s p now hnb
      rw [h] at hlast
      have hnow : s.last_sample_ms = now := by
        rw [Nat.mod_eq_of_lt hn] at hlast
        exact hlast
      refine hnb ?_
      unfold usub32 u32 kDebounceDelayMs at *
      omega
    · intro h
      refine tick_blocked_eq s p now ?_
      rw [key]; exact h
  · intro h10
    refine ⟨s.last_sample_ms - kDebounceDelayMs, ?_, ?_⟩
    · unfold kDebounceDelayMs at *
      omega
    · have hnb : ¬ usub32 (s.last_sample_ms - kDebounceDelayMs)
          s.last_sample_ms < kDebounceDelayMs := by
        unfold usub32 u32 kDebounceDelayMs at *
        omega
      rw [tick_accepted_last s p _ hnb]
      refine Nat.mod_eq_of_lt ?_
      unfold kDebounceDelayMs at *
      omega

/-- Witness for C10 at a concrete wrapped pair: `last_sample_time` one below
the wrap point and `now = 3` just after the wrap — the guard formula applies
and sampling is not permanently blocked. -/
theorem c10_modular_guard_witness :
    (tick wrapState true 3 = { state := wrapState, ledWrite := none, lines := [] } ↔
      (3 + (u32 - wrapState.last_sample_ms)) % u32 < kDebounceDelayMs) ∧
    ∃ m, m < wrapState.last_sample_ms ∧ (tick wrapState true m).state.last_sample_ms = m :=
  ⟨(c10_modular_guard wrapState true 3 (by decide) (by decide)).1,
   (c10_modular_guard wrapState true 3 (by decide) (by decide)).2 (by decide)⟩
